import Mathlib

/-
Verification development for the profile-to-telemetry export core of a small
Flask demo service (src/app/main.py).  The exporter walks a pstats.Stats value
(the frozen snapshot of a cProfile collector) and emits histogram observations
and span attributes.  Machine floats of the source are modelled as exact
rationals; the pstats table is modelled as an association list in insertion
order, matching Python dict iteration.
-/

namespace ProfilerExport

/-- A Python scalar value as it occurs in a pstats function key: either a
string (filename or function name) or an integer (line number). -/
inductive PyVal where
  | str (s : String)
  | int (n : Int)
deriving DecidableEq, Repr

/-- A raw pstats function key, in the source a Python tuple `func`; normally
`(filename, lineno, funcname)` but the source guards on `len(func) == 3`, so
arbitrary lengths are representable. -/
abbrev RawKey := List PyVal

/-- Python repr of one key component, as used by `str(func)` on a tuple in the
common case: strings are wrapped in single quotes, integers print in decimal. -/
def pyReprVal : PyVal → String
  | .str s => "\x27" ++ s ++ "\x27"
  | .int n => toString n

/-- Python `str(func)` for a tuple `func`: comma-separated reprs in
parentheses, with the trailing comma of a one-element tuple. -/
def pyStrOfKey (k : RawKey) : String :=
  match k with
  | [v] => "(" ++ (pyReprVal v ++ ",)")
  | _ => "(" ++ (String.intercalate ", " (k.map pyReprVal) ++ ")")

/-- One raw pstats table entry `(cc, nc, tt, ct, callers)`.  Per the pstats
semantics of the imported standard library, `cc` is the primitive
(non-recursive) call count and `nc` the total call count, with `cc ≤ nc`;
`tt` is internal time and `ct` cumulative time in seconds, with `tt ≤ ct`.
In the spec data model `callCount = nc`, `primitiveCallCount = cc`,
`totalTimeSeconds = tt`, `cumulativeTimeSeconds = ct`. -/
structure RawRecord where
  cc : Nat
  nc : Nat
  tt : ℚ
  ct : ℚ
  callers : List (RawKey × Nat)
deriving DecidableEq, Repr

/-- The `pstats.Stats` value handed to `export_profile_stats`: the attributes
`total_calls`, `total_tt` and the table `stats` that the source reads. -/
structure Stats where
  total_calls : Nat
  total_tt : ℚ
  stats : List (RawKey × RawRecord)
deriving DecidableEq, Repr

/-- The per-function attribute set built in `export_profile_stats`:
`functionName` models the `"function.name"` entry and `functionFile` the
`"function.file"` entry. -/
structure ExportAttributes where
  functionName : PyVal
  functionFile : PyVal
deriving DecidableEq, Repr

/-- The attribute extraction of `export_profile_stats`: when the key has
exactly 3 components it is destructured as `(filename, lineno, funcname)` and
the attributes are built from `funcname` and `filename`; otherwise
`filename, funcname = "unknown", str(func)`. -/
def functionAttributes (func : RawKey) : ExportAttributes :=
  match func with
  | [filename, _lineno, funcname] => ⟨funcname, filename⟩
  | _ => ⟨.str (pyStrOfKey func), .str "unknown"⟩

/-- One histogram observation: the metric it is recorded on, the recorded
value, and the optional attribute set (`profile_total_time.record` passes no
attributes). -/
structure Observation where
  metric : String
  value : ℚ
  attrs : Option ExportAttributes
deriving DecidableEq, Repr

/-- The two observations the loop body of `export_profile_stats` records for
one table entry: `profile_function_calls.record(cc, attributes)` and
`profile_function_time.record(tt * 1000, attributes)`. -/
def recordObservations (func : RawKey) (r : RawRecord) : List Observation :=
  let attributes := functionAttributes func
  [⟨"profile.function.calls", (r.cc : ℚ), some attributes⟩,
   ⟨"profile.function.time", r.tt * 1000, some attributes⟩]

/-- Everything `export_profile_stats` emits: the two span attributes
`profile.total_calls` and `profile.total_time`, and the histogram
observations in emission order. -/
structure ExportResult where
  spanTotalCalls : Nat
  spanTotalTime : ℚ
  observations : List Observation
deriving DecidableEq, Repr

/-- Shallow embedding of `export_profile_stats(stats)` from src/app/main.py:
sets the two span attributes from `stats.total_calls` and `stats.total_tt`,
records two observations per table entry, then records
`profile_total_time.record(stats.total_tt * 1000)` once. -/
def export_profile_stats (s : Stats) : ExportResult :=
  { spanTotalCalls := s.total_calls
    spanTotalTime := s.total_tt
    observations :=
      (s.stats.flatMap fun e => recordObservations e.1 e.2) ++
        [⟨"profile.total.time", s.total_tt * 1000, none⟩] }

/-- The source function mutates nothing: state-passing form of the export,
returning the emitted result together with the snapshot as the call leaves
it.  The body of `export_profile_stats` only reads `stats`. -/
def export_profile_stats_st (s : Stats) : ExportResult × Stats :=
  (export_profile_stats s, s)

/-- The spec data model of one profiled function identity: an optional source
location (file, line) and a name; when the location is unavailable the name is
a synthesized label. -/
structure FunctionKey where
  sourceLocation : Option (PyVal × PyVal)
  name : PyVal
deriving DecidableEq, Repr

/-- The FunctionKey decomposition underlying the attribute extraction of
`export_profile_stats`: a 3-component key carries its source location and
name; any other shape yields an absent location and the stringified raw key
as synthesized name. -/
def decomposeKey (func : RawKey) : FunctionKey :=
  match func with
  | [filename, lineno, funcname] => ⟨some (filename, lineno), funcname⟩
  | _ => ⟨none, .str (pyStrOfKey func)⟩

/-- The ExportAttributes a FunctionKey determines: the name, and the file of
the source location or the placeholder `"unknown"` when the location is
absent. -/
def attributesOfFunctionKey (fk : FunctionKey) : ExportAttributes :=
  ⟨fk.name, (fk.sourceLocation.map Prod.fst).getD (.str "unknown")⟩

/-- Well-formedness of a raw record, as cProfile guarantees it: the primitive
call count is at most the total call count, and the internal time is between
zero and the cumulative time. -/
def RawRecord.wf (r : RawRecord) : Prop :=
  r.cc ≤ r.nc ∧ 0 ≤ r.tt ∧ r.tt ≤ r.ct

instance (r : RawRecord) : Decidable r.wf := by
  unfold RawRecord.wf
  infer_instance

/-- Modelled from the spec: the live cProfile collector state that the
profile endpoint reads.  The repository builds its snapshot through the
external `profiler.dump_stats` and `pstats.Stats`, which are not repository
source; the collector holds the per-function table and the enabled flag. -/
structure Collector where
  table : List (RawKey × RawRecord)
  enabled : Bool
deriving DecidableEq, Repr

/-- Modelled from the spec: the snapshot the builder freezes from collector
state.  Following the pstats semantics the spec describes, `total_calls` sums
the per-record total call counts `nc`, `total_tt` sums the per-record
internal times `tt`, and the record table is taken as is. -/
def statsOfCollector (c : Collector) : Stats :=
  { total_calls := (c.table.map fun e => e.2.nc).sum
    total_tt := (c.table.map fun e => e.2.tt).sum
    stats := c.table }

/-- Modelled from the spec: building the snapshot is a pure read of the
collector; state-passing form returning the snapshot together with the
collector as the build leaves it. -/
def buildSnapshot (c : Collector) : Stats × Collector :=
  (statsOfCollector c, c)

/-- The comparison behind `stats.sort_stats("cumulative")` followed by
`print_stats`: entry `a` precedes entry `b` when the cumulative time of `a`
is at least that of `b` (descending cumulative time). -/
def cumGE (a b : RawKey × RawRecord) : Prop :=
  b.2.ct ≤ a.2.ct

instance : DecidableRel cumGE :=
  fun a b => inferInstanceAs (Decidable (b.2.ct ≤ a.2.ct))

instance : IsTotal (RawKey × RawRecord) cumGE :=
  ⟨fun a b => le_total b.2.ct a.2.ct⟩

instance : IsTrans (RawKey × RawRecord) cumGE :=
  ⟨fun _ _ _ h1 h2 => le_trans h2 h1⟩

/-- The record order the printed table uses after
`stats.sort_stats("cumulative")`: the table sorted by descending cumulative
time.  The sort only affects printing; the dict the export iterates keeps its
insertion order. -/
def sortByCumulative (l : List (RawKey × RawRecord)) : List (RawKey × RawRecord) :=
  List.insertionSort cumGE l

/-- Modelled from the spec: one line of the textual per-function table.  The
spec leaves the exact column layout an implementation choice; the row holds
the call counts, the times, and the function key. -/
def renderRow (e : RawKey × RawRecord) : String :=
  toString e.2.nc ++ "/" ++ toString e.2.cc ++ " " ++ toString e.2.tt ++ " " ++
    toString e.2.ct ++ " " ++ pyStrOfKey e.1

/-- Modelled from the spec: the textual per-function table of
`stats.print_stats`, one row per record in the given order. -/
def renderTable (l : List (RawKey × RawRecord)) : String :=
  String.intercalate "\n" (l.map renderRow)

/-- A JSON value in the response body of the profile endpoint. -/
inductive JsonVal where
  | str (s : String)
  | int (n : Nat)
  | num (q : ℚ)
deriving DecidableEq, Repr

/-- Shallow embedding of the `get_profile` handler: builds the snapshot from
the collector, renders the per-function table in cumulative-descending order,
invokes the exporter on the snapshot, and returns the JSON body as an
association list in key order, together with the emitted telemetry and the
collector as the handler leaves it. -/
def get_profile (c : Collector) :
    List (String × JsonVal) × ExportResult × Collector :=
  let built := buildSnapshot c
  let stats := built.1
  let body := renderTable (sortByCumulative stats.stats)
  let exported := export_profile_stats stats
  ([("profile_data", .str body),
    ("total_calls", .int stats.total_calls),
    ("total_time", .num stats.total_tt)],
   exported, built.2)

/-- The concrete scenario snapshot of the spec: 5 total calls, 0.250 s total
time, and one record for function `foo` in file `a.py` with 5 calls (all
primitive), 0.100 s internal time and 0.200 s cumulative time. -/
def scenarioStats : Stats :=
  { total_calls := 5
    total_tt := 1/4
    stats := [([.str "a.py", .int 1, .str "foo"],
               { cc := 5, nc := 5, tt := 1/10, ct := 1/5, callers := [] })] }

/-- A snapshot with one recursive function: 5 total calls (`nc`), of which 3
are primitive (`cc`), 1 s internal and cumulative time. -/
def recursiveStats : Stats :=
  { total_calls := 5
    total_tt := 1
    stats := [([.str "r.py", .int 2, .str "rec"],
               { cc := 3, nc := 5, tt := 1, ct := 1, callers := [] })] }

/-- A concrete well-formed raw record: 5 calls, all primitive, 0.100 s
internal and 0.200 s cumulative time. -/
def wfRecord : RawRecord :=
  { cc := 5, nc := 5, tt := 1/10, ct := 1/5, callers := [] }

/-- A concrete well-formed collector state holding the one record above. -/
def wfCollector : Collector :=
  ⟨[([.str "a.py", .int 1, .str "foo"], wfRecord)], false⟩

end ProfilerExport

namespace ProfilerExport

theorem pyStrOfKey_ne_empty (k : RawKey) : pyStrOfKey k ≠ "" := by
  have hx : ∃ t : String, pyStrOfKey k = "(" ++ t := by
    match k with
    | [] => exact ⟨_, rfl⟩
    | [a] => exact ⟨_, rfl⟩
    | a :: b :: t => exact ⟨_, rfl⟩
  obtain ⟨t, ht⟩ := hx
  rw [ht]
  intro hc
  have h2 := congrArg String.length hc
  simp [String.length_append] at h2
  exact absurd h2.1 (by decide)

theorem flatMap_obs_length (l : List (RawKey × RawRecord)) :
    (l.flatMap fun e => recordObservations e.1 e.2).length = 2 * l.length := by
  induction l with
  | nil => rfl
  | cons a t ih =>
      simp only [List.flatMap_cons, List.length_append, ih, List.length_cons]
      simp [recordObservations]
      omega

theorem flatMap_obs_countP_calls (l : List (RawKey × RawRecord)) :
    ((l.flatMap fun e => recordObservations e.1 e.2).countP
        fun o => o.metric == "profile.function.calls") = l.length := by
  induction l with
  | nil => rfl
  | cons a t ih =>
      simp only [List.flatMap_cons, List.countP_append, ih]
      simp [recordObservations, List.countP_cons]
      omega

theorem flatMap_obs_countP_time (l : List (RawKey × RawRecord)) :
    ((l.flatMap fun e => recordObservations e.1 e.2).countP
        fun o => o.metric == "profile.function.time") = l.length := by
  induction l with
  | nil => rfl
  | cons a t ih =>
      simp only [List.flatMap_cons, List.countP_append, ih]
      simp [recordObservations, List.countP_cons]
      omega

theorem flatMap_obs_countP_total (l : List (RawKey × RawRecord)) :
    ((l.flatMap fun e => recordObservations e.1 e.2).countP
        fun o => o.metric == "profile.total.time") = 0 := by
  induction l with
  | nil => rfl
  | cons a t ih =>
      simp only [List.flatMap_cons, List.countP_append, ih]
      simp [recordObservations, List.countP_cons]

/-- C1: one export call on a snapshot with n function records emits exactly
2*n+1 histogram observations: exactly one call-count and one time observation
per record, and exactly one total-time observation, also when n = 0. -/
theorem export_emits_two_per_record_plus_total (s : Stats) :
    (export_profile_stats s).observations.length = 2 * s.stats.length + 1 ∧
    ((export_profile_stats s).observations.countP
        fun o => o.metric == "profile.function.calls") = s.stats.length ∧
    ((export_profile_stats s).observations.countP
        fun o => o.metric == "profile.function.time") = s.stats.length ∧
    ((export_profile_stats s).observations.countP
        fun o => o.metric == "profile.total.time") = 1 := by
  refine ⟨?_, ?_, ?_, ?_⟩
  · simp only [export_profile_stats, List.length_append]
    rw [flatMap_obs_length]
    simp
  · simp only [export_profile_stats, List.countP_append]
    rw [flatMap_obs_countP_calls]
    simp [List.countP_cons]
  · simp only [export_profile_stats, List.countP_append]
    rw [flatMap_obs_countP_time]
    simp [List.countP_cons]
  · simp only [export_profile_stats, List.countP_append]
    rw [flatMap_obs_countP_total]
    simp [List.countP_cons]

/-- C2: at a recursive function with 5 total calls (nc) of which 3 are
primitive (cc) the source records the first tuple component cc, so the
profile.function.calls observation carries 3, not the total call count 5 the
spec requires; the code records the primitive call count although its own
comment and metric description say number of calls. -/
theorem export_calls_value_is_cc :
    (export_profile_stats recursiveStats).observations =
      [⟨"profile.function.calls", 3, some ⟨.str "rec", .str "r.py"⟩⟩,
       ⟨"profile.function.time", 1000, some ⟨.str "rec", .str "r.py"⟩⟩,
       ⟨"profile.total.time", 1000, none⟩] ∧
    (recursiveStats.stats.map fun e => e.2.nc) = [5] ∧
    (3 : ℚ) ≠ 5 := by
  refine ⟨?_, rfl, by norm_num⟩
  simp [export_profile_stats, recursiveStats, recordObservations,
    functionAttributes]

/-- C3: on the concrete scenario snapshot the export sets span attributes
profile.total_calls = 5 and profile.total_time = 0.250, emits a call-count
observation of 5 and a time observation of 100 ms tagged with function foo in
file a.py, and one untagged total-time observation of 250 ms taken from the
snapshot aggregate, which differs from the 100 ms sum over the records. -/
theorem export_concrete_scenario :
    export_profile_stats scenarioStats =
      { spanTotalCalls := 5
        spanTotalTime := 1/4
        observations :=
          [⟨"profile.function.calls", 5, some ⟨.str "foo", .str "a.py"⟩⟩,
           ⟨"profile.function.time", 100, some ⟨.str "foo", .str "a.py"⟩⟩,
           ⟨"profile.total.time", 250, none⟩] } ∧
    (scenarioStats.stats.map fun e => e.2.tt * 1000).sum ≠ 250 := by
  refine ⟨?_, ?_⟩
  · simp [export_profile_stats, scenarioStats, recordObservations,
      functionAttributes]
    norm_num
  · simp [scenarioStats]
    norm_num

/-- C4: building the snapshot from a collector state with zero recorded
functions does not fail and yields total_calls = 0 and an empty record
set. -/
theorem empty_collector_snapshot (c : Collector) (h : c.table = []) :
    (buildSnapshot c).1.total_calls = 0 ∧ (buildSnapshot c).1.stats = [] := by
  simp [buildSnapshot, statsOfCollector, h]

theorem empty_collector_snapshot_witness :
    (buildSnapshot ⟨[], false⟩).1.total_calls = 0 ∧
    (buildSnapshot ⟨[], false⟩).1.stats = [] :=
  empty_collector_snapshot ⟨[], false⟩ rfl

/-- C5: the export is a pure projection of the snapshot: the snapshot after
one export call equals the input, and a second call on that snapshot emits
the identical span attributes and observation list. -/
theorem export_pure_and_idempotent (s : Stats) :
    (export_profile_stats_st s).2 = s ∧
    export_profile_stats_st ((export_profile_stats_st s).2) =
      export_profile_stats_st s :=
  ⟨rfl, rfl⟩

/-- C6: every record of a snapshot built from a well-formed collector state
satisfies callCount (nc) at least primitiveCallCount (cc) at least 0 and
cumulativeTimeSeconds (ct) at least totalTimeSeconds (tt) at least 0. -/
theorem snapshot_record_invariants (c : Collector)
    (h : ∀ e ∈ c.table, e.2.wf) :
    ∀ e ∈ (buildSnapshot c).1.stats,
      e.2.cc ≤ e.2.nc ∧ 0 ≤ e.2.tt ∧ e.2.tt ≤ e.2.ct :=
  fun e he => h e he

theorem snapshot_record_invariants_witness :
    wfRecord.cc ≤ wfRecord.nc ∧ 0 ≤ wfRecord.tt ∧ wfRecord.tt ≤ wfRecord.ct :=
  snapshot_record_invariants wfCollector
    (by
      intro e he
      simp only [wfCollector, List.mem_singleton] at he
      subst he
      exact ⟨by norm_num [wfRecord], by norm_num [wfRecord],
        by norm_num [wfRecord]⟩)
    ([.str "a.py", .int 1, .str "foo"], wfRecord)
    (by simp [wfCollector, buildSnapshot, statsOfCollector])

/-- C7: a record whose raw key has fewer than 3 components does not make the
export fail: its FunctionKey has an absent source location and the non-empty
stringified raw key as synthesized name, the emitted attributes agree with
that FunctionKey, and both per-function observations are still emitted. -/
theorem short_key_fallback (func : RawKey) (r : RawRecord)
    (h : func.length < 3) :
    (decomposeKey func).sourceLocation = none ∧
    (decomposeKey func).name = .str (pyStrOfKey func) ∧
    pyStrOfKey func ≠ "" ∧
    functionAttributes func = attributesOfFunctionKey (decomposeKey func) ∧
    recordObservations func r =
      [⟨"profile.function.calls", (r.cc : ℚ), some (functionAttributes func)⟩,
       ⟨"profile.function.time", r.tt * 1000,
        some (functionAttributes func)⟩] := by
  rcases func with _ | ⟨a, _ | ⟨b, _ | ⟨c, t⟩⟩⟩
  · exact ⟨rfl, rfl, pyStrOfKey_ne_empty [], rfl, rfl⟩
  · exact ⟨rfl, rfl, pyStrOfKey_ne_empty [a], rfl, rfl⟩
  · exact ⟨rfl, rfl, pyStrOfKey_ne_empty [a, b], rfl, rfl⟩
  · simp at h
    omega

theorem short_key_fallback_witness :
    (decomposeKey [.str "a", .int 0]).sourceLocation = none ∧
    (decomposeKey [.str "a", .int 0]).name =
      .str (pyStrOfKey [.str "a", .int 0]) ∧
    pyStrOfKey [.str "a", .int 0] ≠ "" ∧
    functionAttributes [.str "a", .int 0] =
      attributesOfFunctionKey (decomposeKey [.str "a", .int 0]) ∧
    recordObservations [.str "a", .int 0] ⟨1, 1, 0, 0, []⟩ =
      [⟨"profile.function.calls", ((1 : Nat) : ℚ),
        some (functionAttributes [.str "a", .int 0])⟩,
       ⟨"profile.function.time", (0 : ℚ) * 1000,
        some (functionAttributes [.str "a", .int 0])⟩] :=
  short_key_fallback [.str "a", .int 0] ⟨1, 1, 0, 0, []⟩ (by decide)

/-- C8: building the snapshot leaves the collector exactly as it was, its
table and its enabled flag alike, and the built snapshot is the pure
projection of the collector state. -/
theorem buildSnapshot_frame (c : Collector) :
    (buildSnapshot c).2.table = c.table ∧
    (buildSnapshot c).2.enabled = c.enabled ∧
    (buildSnapshot c).1 = statsOfCollector c :=
  ⟨rfl, rfl, rfl⟩

/-- C9: the profile endpoint response is a map with exactly the keys
profile_data, total_calls and total_time; profile_data holds the textual
table in cumulative-descending order, total_calls the snapshot total call
count, total_time the snapshot total time. -/
theorem get_profile_response_shape (c : Collector) :
    ((get_profile c).1.map Prod.fst =
        ["profile_data", "total_calls", "total_time"]) ∧
    (get_profile c).1 =
      [("profile_data",
        .str (renderTable (sortByCumulative (statsOfCollector c).stats))),
       ("total_calls", .int (statsOfCollector c).total_calls),
       ("total_time", .num (statsOfCollector c).total_tt)] ∧
    List.Sorted cumGE (sortByCumulative (statsOfCollector c).stats) :=
  ⟨rfl, rfl, List.sorted_insertionSort cumGE _⟩

/-- C10: a raw key of any length other than 3, longer ones included, gets the
fallback attributes: file is the literal sentinel "unknown" and name the
stringified whole key; a 3-component key contributes only its first and third
components, the middle line number is dropped. -/
theorem attribute_extraction_cases (k : RawKey) :
    (k.length ≠ 3 →
      functionAttributes k = ⟨.str (pyStrOfKey k), .str "unknown"⟩) ∧
    (∀ a b c : PyVal, k = [a, b, c] → functionAttributes k = ⟨c, a⟩) ∧
    (∀ a b b2 c : PyVal,
      functionAttributes [a, b, c] = functionAttributes [a, b2, c]) := by
  refine ⟨?_, ?_, fun a b b2 c => rfl⟩
  · intro h
    rcases k with _ | ⟨a, _ | ⟨b, _ | ⟨c, _ | ⟨d, t⟩⟩⟩⟩
    · rfl
    · rfl
    · rfl
    · simp at h
    · rfl
  · intro a b c h
    subst h
    rfl

theorem attribute_extraction_cases_witness :
    functionAttributes [.str "x", .int 1, .str "y", .str "z"] =
      ⟨.str (pyStrOfKey [.str "x", .int 1, .str "y", .str "z"]),
       .str "unknown"⟩ ∧
    functionAttributes [.str "a.py", .int 7, .str "foo"] =
      ⟨.str "foo", .str "a.py"⟩ :=
  ⟨(attribute_extraction_cases [.str "x", .int 1, .str "y", .str "z"]).1
      (by decide),
   (attribute_extraction_cases [.str "a.py", .int 7, .str "foo"]).2.1
      (.str "a.py") (.int 7) (.str "foo") rfl⟩

end ProfilerExport
